import Mathlib

/-!
Verification of the date-representation conversion engine of `datecalendar`
(`src/datecalendar.py`) against its specification.

Conventions of the shallow embedding:

* Python integers are modelled as `ℤ`.  Python `//` and `%` (floor division
  and floor modulus) are `Int.fdiv` / `Int.emod`; every divisor appearing in
  the source is a positive literal, for which `Int.emod` agrees with Python
  `%` and `Int.fdiv` agrees with Python `//`.
* Bounded integer construction (`SolidityInt.__new__`), which raises
  `OverflowError` when the value is out of bounds, is modelled by
  `Option`-returning checked constructors (`none` = exception raised).
* The float constants of the source are exact: `20*10**9*365.25` is the
  float `7305000000000.0` and `40*10**9*365.25` is `14610000000000.0`; both
  integers are below `2^53`, so the Python float products are exactly these
  integers, and the float additions/subtractions performed with them on
  in-bounds values stay below `2^53` and are exact as well.  They are
  therefore embedded as the corresponding integers.
* `GCalDate` / `JCalDate` are the same record shape with a `kind` tag
  standing for the Python class; the Python comparison methods never read
  the class (beyond an `isinstance(other, CalendarDate)` guard that both
  classes pass), which the embedding mirrors by ignoring the tag.
-/

set_option maxRecDepth 10000

namespace DateCalendar

/-- Bounds of the Solidity-style integer types as computed by
`SolidityInt.get_int_bounds`: unsigned N-bit is `[0, 2^N - 1]`, signed N-bit
is `[-2^(N-1), 2^(N-1) - 1]`. -/
def solidityBounds (unsigned : Bool) (size : ℕ) : ℤ × ℤ :=
  if unsigned then (0, 2 ^ size - 1) else (-(2 ^ (size - 1)), 2 ^ (size - 1) - 1)

def uint8Bounds : ℤ × ℤ := solidityBounds true 8

def uint16Bounds : ℤ × ℤ := solidityBounds true 16

def uint256Bounds : ℤ × ℤ := solidityBounds true 256

def int256Bounds : ℤ × ℤ := solidityBounds false 256

/-- Model of `SolidityInt.__new__`: constructing a value succeeds exactly when
it lies inside the class bounds, otherwise Python raises `OverflowError`
(modelled as `none`). -/
def mkSolidityInt (b : ℤ × ℤ) (v : ℤ) : Option ℤ :=
  if b.1 ≤ v ∧ v ≤ b.2 then some v else none

/-- Model of `DateTokenIndex.get_int_bounds`, which overrides the `uint256`
bounds with `(0, 40*10**9*365.25)`.  The Python upper bound is the float
`14610000000000.0`, exactly the integer `14610000000000`. -/
def DateTokenIndex.bounds : ℤ × ℤ := (0, 14610000000000)

/-- Model of `DateTokenIndex.MIDPOINT = 20*10**9*365.25`, the float
`7305000000000.0`, exactly the integer `7305000000000`. -/
def DateTokenIndex.MIDPOINT : ℤ := 7305000000000

/-- Model of `JDN.get_int_bounds`: `(-20*10**9*365.25, 20*10**9*365.25)`,
exactly `(-7305000000000, 7305000000000)`. -/
def JDN.bounds : ℤ × ℤ := (-7305000000000, 7305000000000)

/-- A Julian Date: Julian Day Number plus day fraction
(the namedtuple `JulianDate`). -/
structure JulianDate where
  jdn : ℤ
  day_fraction : ℤ
  deriving DecidableEq

/-- Model of `JulianDate.__new__`, which wraps `jdn` in `JDN` (bounds
`±7305000000000`) and `day_fraction` in `uint16`; an out-of-bounds component
raises `OverflowError` (`none`). -/
def JulianDate.make (jdn day_fraction : ℤ) : Option JulianDate :=
  match mkSolidityInt JDN.bounds jdn, mkSolidityInt uint16Bounds day_fraction with
  | some j, some f => some ⟨j, f⟩
  | _, _ => none

/-- Model of `DateTokenIndex.from_jd`: `DateTokenIndex(jd.jdn + MIDPOINT)`
(the float addition is exact for every in-bounds `jdn`); the `DateTokenIndex`
constructor checks `DateTokenIndex.bounds`. -/
def DateTokenIndex.from_jd (jd : JulianDate) : Option ℤ :=
  mkSolidityInt DateTokenIndex.bounds (jd.jdn + DateTokenIndex.MIDPOINT)

/-- Model of `JulianDate.from_dti`:
`JulianDate(jdn = dti - MIDPOINT, day_fraction = 5)` (exact float
subtraction for every in-bounds dti). -/
def JulianDate.from_dti (dti : ℤ) : Option JulianDate :=
  JulianDate.make (dti - DateTokenIndex.MIDPOINT) 5

/-- Tag standing for the concrete Python calendar class of a date. -/
inductive CalKind
  | gregorian
  | julian
  deriving DecidableEq

/-- The namedtuple `CalendarDate` fields, plus the `kind` tag standing for
the concrete Python class (`GCalDate` or `JCalDate`). -/
structure CalendarDate where
  kind : CalKind
  day_of_week : ℤ
  day : ℤ
  month : ℤ
  year : ℤ
  deriving DecidableEq

/-- Model of `CalendarDate.__lt__`: lexicographic on (year, month, day) only;
`day_of_week` and the concrete class are never examined (the
`isinstance(other, CalendarDate)` guard passes for both calendar classes). -/
def CalendarDate.pyLt (a b : CalendarDate) : Bool :=
  if a.year > b.year then false
  else if a.year < b.year then true
  else if a.month > b.month then false
  else if a.month < b.month then true
  else if a.day > b.day then false
  else if a.day < b.day then true
  else false

/-- Model of `ComparableMixin.__eq__`:
`not self < other and not other < self`. -/
def CalendarDate.pyEq (a b : CalendarDate) : Bool :=
  !(a.pyLt b) && !(b.pyLt a)

/-- The tuple `GCalDate._FROM_JD_HELPER`. -/
def FROM_JD_HELPER : List ℤ :=
  [0, 31, 61, 92, 122, 153, 184, 214, 245, 275, 306, 337]

/-- The tuple `GCalDate._TO_JD_HELPER`. -/
def TO_JD_HELPER : List ℤ :=
  [306, 337, 0, 31, 61, 92, 122, 153, 184, 214, 245, 275]

/-- Lookup `_FROM_JD_HELPER[m-3]` as performed by `from_jd`; for every
in-bounds Julian Date the index `m - 3` lies in `[0, 11]`. -/
def fromHelper (m : ℤ) : ℤ := FROM_JD_HELPER.getD (m - 3).toNat 0

/-- Lookup `_TO_JD_HELPER[month-1]` as performed by `to_jd`.  For
`month = 0` Python's negative indexing wraps the index `-1` to the last
entry, `275`.  (For `month ≥ 13`, which a `uint8` month field permits,
Python raises `IndexError`; the checked variant `GCalDate.to_jd_checked`
models that, and this total function is only applied below `13`.) -/
def toHelper (month : ℤ) : ℤ :=
  if month = 0 then 275 else TO_JD_HELPER.getD (month - 1).toNat 0

/-- Model of `GCalDate.day_of_week_from_jd`: `int((jd.jdn + 2) % 7)`.
Python `%` with the positive modulus `7` is `Int.emod`, Lean's `%` on `ℤ`. -/
def GCalDate.day_of_week_from_jd (jd : JulianDate) : ℤ :=
  (jd.jdn + 2) % 7

/-- Model of `JCalDate.day_of_week_from_jd`, which delegates to
`GCalDate.day_of_week_from_jd`. -/
def JCalDate.day_of_week_from_jd (jd : JulianDate) : ℤ :=
  GCalDate.day_of_week_from_jd jd

/-- The local `a` of `GCalDate.from_jd`: `(z*100 - k) // 3652425` with
`k = 25`. -/
def GCalDate.fromA (z : ℤ) : ℤ := (z * 100 - 25).fdiv 3652425

/-- The local `y` of `GCalDate.from_jd`:
`(z*100 - k + a*100 - a // 4 * 100) // 36525`. -/
def GCalDate.fromY (z : ℤ) : ℤ :=
  (z * 100 - 25 + GCalDate.fromA z * 100 - (GCalDate.fromA z).fdiv 4 * 100).fdiv 36525

/-- The local `c` of `GCalDate.from_jd`:
`z + a - a // 4 - (36525 * y) // 100`. -/
def GCalDate.fromC (z : ℤ) : ℤ :=
  z + GCalDate.fromA z - (GCalDate.fromA z).fdiv 4 -
    (36525 * GCalDate.fromY z).fdiv 100

/-- The local `m` of `GCalDate.from_jd`: `int((5 * c + 456) / 153)`.  Python
performs an exact-to-double true division and truncates toward zero; for
every in-bounds Julian Date `c` lies in `[1, 366]`, so the numerator lies in
`[461, 2286]`, the correctly rounded double quotient is within `10^-12` of
the exact value (never within `1/153` of crossing an integer except when
exact), and the truncation coincides with floor division by `153`. -/
def GCalDate.fromM (z : ℤ) : ℤ := (5 * GCalDate.fromC z + 456).fdiv 153

/-- Model of `GCalDate.from_jd` (Baum's Gregorian algorithm). -/
def GCalDate.from_jd (jd : JulianDate) : CalendarDate :=
  let z := jd.jdn - 1721118
  let y := GCalDate.fromY z
  let c := GCalDate.fromC z
  let m := GCalDate.fromM z
  let f := fromHelper m
  let d := c - f
  let y2 := if m > 12 then y + 1 else y
  let m2 := if m > 12 then m - 12 else m
  ⟨CalKind.gregorian, GCalDate.day_of_week_from_jd jd, d, m2, y2⟩

/-- Model of `GCalDate.to_jd` (Baum's inverse formula); total on the raw
integer arithmetic, ignoring the bound checks (see `GCalDate.to_jd_checked`
for those). -/
def GCalDate.to_jd (dt : CalendarDate) : JulianDate :=
  let z := if dt.month < 3 then dt.year - 1 else dt.year
  let f := toHelper dt.month
  ⟨dt.day + f + 365 * z + z.fdiv 4 - z.fdiv 100 + z.fdiv 400 + 1721118, 5⟩

/-- Model of `GCalDate.to_jd` including its failure modes: the
`_TO_JD_HELPER[month-1]` lookup raises `IndexError` for `month ≥ 13` (the
`uint8` month field forbids negative months below `0`, and `month = 0` wraps
to the last entry), and the final `JulianDate` construction checks the `JDN`
and `uint16` bounds. -/
def GCalDate.to_jd_checked (dt : CalendarDate) : Option JulianDate :=
  if dt.month ≥ 13 then none
  else JulianDate.make (GCalDate.to_jd dt).jdn 5

/-- Model of `CalendarDate.from_dmy` specialised to `GCalDate`: build the
date with a placeholder day-of-week `0`, compute the day of week from its
JD, rebuild. -/
def GCalDate.from_dmy (day month year : ℤ) : CalendarDate :=
  let cd : CalendarDate := ⟨CalKind.gregorian, 0, day, month, year⟩
  let dow := GCalDate.day_of_week_from_jd (GCalDate.to_jd cd)
  ⟨CalKind.gregorian, dow, day, month, year⟩

/-- Model of the `CalendarDate.valid` property for a `GCalDate`:
`self == cls.from_jd(self.to_jd())` with the mixin equality. -/
def GCalDate.valid (dt : CalendarDate) : Bool :=
  CalendarDate.pyEq dt (GCalDate.from_jd (GCalDate.to_jd dt))

/-- Model of `GCalDate.leap_year`:
`not (year % 4) and ((year % 100) or not (year % 400))` under Python
truthiness (a modulus is falsy exactly when it is `0`). -/
def GCalDate.leap_year (year : ℤ) : Bool :=
  (year % 4 == 0) && ((year % 100 != 0) || (year % 400 == 0))

/-- The local `y` of `JCalDate.from_jd`: `(z*100 - k) // 36525` with
`k = 25`.  (The source also computes an `a = (z*100 - k) // 3652425` that it
never uses.) -/
def JCalDate.fromY (z : ℤ) : ℤ := (z * 100 - 25).fdiv 36525

/-- The local `c` of `JCalDate.from_jd`: `z - (36525 * y) // 100`. -/
def JCalDate.fromC (z : ℤ) : ℤ :=
  z - (36525 * JCalDate.fromY z).fdiv 100

/-- The local `m` of `JCalDate.from_jd`: `int((5 * c + 456) / 153)`; the
same float-truncation-equals-floor remark as for `GCalDate.fromM` applies. -/
def JCalDate.fromM (z : ℤ) : ℤ := (5 * JCalDate.fromC z + 456).fdiv 153

/-- Model of `JCalDate.from_jd` (Baum's Julian-calendar algorithm); it reuses
`GCalDate._FROM_JD_HELPER` for the month table. -/
def JCalDate.from_jd (jd : JulianDate) : CalendarDate :=
  let z := jd.jdn - 1721116
  let y := JCalDate.fromY z
  let c := JCalDate.fromC z
  let m := JCalDate.fromM z
  let f := fromHelper m
  let d := c - f
  let y2 := if m > 12 then y + 1 else y
  let m2 := if m > 12 then m - 12 else m
  ⟨CalKind.julian, JCalDate.day_of_week_from_jd jd, d, m2, y2⟩

/-- Model of `JCalDate.to_jd`; it reuses `GCalDate._TO_JD_HELPER` and drops
the two century-correction terms. -/
def JCalDate.to_jd (dt : CalendarDate) : JulianDate :=
  let z := if dt.month < 3 then dt.year - 1 else dt.year
  let f := toHelper dt.month
  ⟨dt.day + f + 365 * z + z.fdiv 4 + 1721116, 5⟩

/-- Model of `CalendarDate.from_dmy` specialised to `JCalDate`. -/
def JCalDate.from_dmy (day month year : ℤ) : CalendarDate :=
  let cd : CalendarDate := ⟨CalKind.julian, 0, day, month, year⟩
  let dow := JCalDate.day_of_week_from_jd (JCalDate.to_jd cd)
  ⟨CalKind.julian, dow, day, month, year⟩

/-- Model of the `CalendarDate.valid` property for a `JCalDate`. -/
def JCalDate.valid (dt : CalendarDate) : Bool :=
  CalendarDate.pyEq dt (JCalDate.from_jd (JCalDate.to_jd dt))

/-- Model of `JCalDate.leap_year`: `not (year % 4)`. -/
def JCalDate.leap_year (year : ℤ) : Bool :=
  year % 4 == 0

/-- The tuple `CalendarDate.DAYS_OF_WEEK`. -/
def DAYS_OF_WEEK : List String :=
  ["Sunday", "Monday", "Tuesday", "Wednesday", "Thursday", "Friday", "Saturday"]

/-- The tuple `CalendarDate.MONTHS`. -/
def MONTHS : List String :=
  ["January", "February", "March", "April", "May", "June", "July", "August",
   "September", "October", "November", "December"]

/-- The tuple `CalendarDate.BC_ERAS`. -/
def BC_ERAS : List String := ["BC", "BCE", "B.C.", "B.C.E."]

/-- The tuple `CalendarDate.AD_ERAS`. -/
def AD_ERAS : List String := ["AD", "CE", "A.D.", "C.E."]

/-- Model of `CalendarDate.convert_signed_year`: a non-positive astronomical
year `y` becomes `(-y + 1, 'BC')`, a positive year stays `(y, 'AD')`. -/
def CalendarDate.convert_signed_year (year : ℤ) : ℤ × String :=
  if year ≤ 0 then (-year + 1, "BC") else (year, "AD")

/-- Model of `CalendarDate.convert_unsigned_year`. -/
def CalendarDate.convert_unsigned_year (year : ℤ) (era : String) : ℤ :=
  if BC_ERAS.contains era then -(year - 1) else year

/-- Model of `CalendarDate.__str__`: renders
`'{dow} {d} {m} {y_} {era}'` when the converted era is a BC era, else
`'{dow} {d} {m} {y}'` with the raw signed year. -/
def CalendarDate.render (dt : CalendarDate) : String :=
  let dow := DAYS_OF_WEEK.getD dt.day_of_week.toNat ""
  let m := MONTHS.getD (dt.month - 1).toNat ""
  let p := CalendarDate.convert_signed_year dt.year
  if BC_ERAS.contains p.2 then
    dow ++ " " ++ toString dt.day ++ " " ++ m ++ " " ++ toString p.1 ++ " " ++ p.2
  else
    dow ++ " " ++ toString dt.day ++ " " ++ m ++ " " ++ toString dt.year

/-- Round-half-even of the exact quotient `a / b` for `b > 0`; this is the
rounding CPython applies when dividing two ints with `/` (the result is the
IEEE-754 double nearest the exact quotient, ties to even). -/
def rhe (a b : ℤ) : ℤ :=
  let q := a.fdiv b
  let r := a.fmod b
  if 2 * r < b then q
  else if b < 2 * r then q + 1
  else if q % 2 = 0 then q else q + 1

/-- Decides whether `n / 100 < 2 ^ e` (exact rational comparison), for any
integer exponent `e`. -/
def ltPow2Div100 (n e : ℤ) : Bool :=
  if 0 ≤ e then decide (n < 100 * 2 ^ e.toNat)
  else decide (n * 2 ^ (-e).toNat < 100)

/-- Fuel-bounded base-2 logarithm (structural recursion so that the kernel
can evaluate it; agrees with the mathematical `⌊log2 n⌋` for `n ≥ 1`
whenever `fuel ≥ log2 n`, in particular with fuel `300` for every `n` below
`2^300`). -/
def log2Aux (fuel n : ℕ) : ℕ :=
  match fuel with
  | 0 => 0
  | f + 1 => if n ≤ 1 then 0 else log2Aux f (n / 2) + 1

/-- The binade exponent of `n / 100` for `n ≥ 1`: the unique `e` with
`2 ^ e ≤ n / 100 < 2 ^ (e + 1)`.  Since `2^6 < 100 < 2^7`, it is either
`log2 n - 7` or `log2 n - 6`. -/
def floatExp100 (n : ℤ) : ℤ :=
  let L : ℤ := (log2Aux 300 n.toNat : ℤ)
  if ltPow2Div100 n (L - 6) then L - 7 else L - 6

/-- Model of Python `math.ceil(n / 100)` for an int `n ≥ 1`: `n / 100` is
the correctly rounded (round-half-even) 53-bit double of the exact quotient,
a dyadic rational with exponent `e - 52` where `e` is the binade exponent;
`math.ceil` of that dyadic rational is exact.  This coincides with the exact
ceiling `⌈n / 100⌉` for `n` up to about `9 * 10^13` but deviates for larger
`n`, where a double can no longer resolve the fractional part. -/
def pyCeilDiv100 (n : ℤ) : ℤ :=
  let e := floatExp100 n
  if e ≤ 52 then
    let s : ℕ := (52 - e).toNat
    (rhe (n * 2 ^ s) 100 + (2 ^ s - 1)).fdiv (2 ^ s)
  else
    let s : ℕ := (e - 52).toNat
    rhe n (100 * 2 ^ s) * 2 ^ s

/-- Model of `CalendarDate.get_century_of_signed_year`:
`(math.ceil(uns_y / 100), era)` with Python's float-based ceiling. -/
def CalendarDate.get_century_of_signed_year (year : ℤ) : ℤ × String :=
  let p := CalendarDate.convert_signed_year year
  (pyCeilDiv100 p.1, p.2)

/-- Exact-arithmetic counterpart of `get_century_of_signed_year`, the
century computed as the exact integer ceiling `⌈uns_y / 100⌉` the source
comment intends; it agrees with the float-based model whenever the unsigned
year is small enough for a double to resolve (up to about `9 * 10^13`). -/
def CalendarDate.get_century_exact (year : ℤ) : ℤ × String :=
  let p := CalendarDate.convert_signed_year year
  ((p.1 + 99).fdiv 100, p.2)

/-- Model of `CalendarDate.get_signed_bounds_of_century`. -/
def CalendarDate.get_signed_bounds_of_century (century : ℤ) (era : String) : ℤ × ℤ :=
  if BC_ERAS.contains era then (-century * 100 + 1, (-century + 1) * 100)
  else ((century - 1) * 100 + 1, century * 100)

/-! Helper lemmas (shared between the claim theorems). -/

/-- Python floor division by the positive divisor 4 is `Int.ediv`. -/
theorem aux_fdiv_4 (a : ℤ) : a.fdiv 4 = a / 4 := Int.fdiv_eq_ediv a (by norm_num)

/-- Python floor division by the positive divisor 100 is `Int.ediv`. -/
theorem aux_fdiv_100 (a : ℤ) : a.fdiv 100 = a / 100 := Int.fdiv_eq_ediv a (by norm_num)

/-- Python floor division by the positive divisor 153 is `Int.ediv`. -/
theorem aux_fdiv_153 (a : ℤ) : a.fdiv 153 = a / 153 := Int.fdiv_eq_ediv a (by norm_num)

/-- Python floor division by the positive divisor 400 is `Int.ediv`. -/
theorem aux_fdiv_400 (a : ℤ) : a.fdiv 400 = a / 400 := Int.fdiv_eq_ediv a (by norm_num)

/-- Python floor division by the positive divisor 36525 is `Int.ediv`. -/
theorem aux_fdiv_36525 (a : ℤ) : a.fdiv 36525 = a / 36525 :=
  Int.fdiv_eq_ediv a (by norm_num)

/-- Python floor division by the positive divisor 3652425 is `Int.ediv`. -/
theorem aux_fdiv_3652425 (a : ℤ) : a.fdiv 3652425 = a / 3652425 :=
  Int.fdiv_eq_ediv a (by norm_num)

/-- A bounded construction succeeds when the value is inside the bounds. -/
theorem aux_mk_some (b : ℤ × ℤ) (v : ℤ) (h : b.1 ≤ v ∧ v ≤ b.2) :
    mkSolidityInt b v = some v := by
  unfold mkSolidityInt
  exact if_pos h

/-- Constructing a `JulianDate` with an in-bounds day number and day
fraction succeeds. -/
theorem aux_make_some (j f : ℤ)
    (hj : -7305000000000 ≤ j ∧ j ≤ 7305000000000)
    (hf : 0 ≤ f ∧ f ≤ 65535) :
    JulianDate.make j f = some ⟨j, f⟩ := by
  unfold JulianDate.make
  rw [aux_mk_some JDN.bounds j (by exact hj),
    aux_mk_some uint16Bounds f (by norm_num [uint16Bounds, solidityBounds]; omega)]

/-- The mixin equality compares exactly the (year, month, day) triple:
`day_of_week` and the concrete calendar class are ignored. -/
theorem aux_pyEq_iff (a b : CalendarDate) :
    CalendarDate.pyEq a b = true ↔
      a.year = b.year ∧ a.month = b.month ∧ a.day = b.day := by
  cases a
  cases b
  simp only [CalendarDate.pyEq, CalendarDate.pyLt, Bool.and_eq_true,
    Bool.not_eq_true']
  split_ifs <;> simp_all
  all_goals omega

/-- The Gregorian leap-year predicate, as a proposition. -/
theorem aux_gleap_iff (y : ℤ) :
    GCalDate.leap_year y = true ↔
      y % 4 = 0 ∧ (y % 100 ≠ 0 ∨ y % 400 = 0) := by
  simp only [GCalDate.leap_year, Bool.and_eq_true, Bool.or_eq_true, beq_iff_eq,
    bne_iff_ne, ne_eq]

/-- The Julian-calendar leap-year predicate, as a proposition. -/
theorem aux_jleap_iff (y : ℤ) :
    JCalDate.leap_year y = true ↔ y % 4 = 0 := by
  simp only [JCalDate.leap_year, beq_iff_eq]

/-! Claim theorems. -/

/-- C3: for every Julian Date the day of week of both calendars is
`(jdn + 2) mod 7`, always in `[0, 6]` (also for negative `jdn`);
incrementing `jdn` by one advances it by exactly one mod 7; and the two
calendars agree. -/
theorem day_of_week_spec (jd : JulianDate) :
    GCalDate.day_of_week_from_jd jd = (jd.jdn + 2) % 7 ∧
    0 ≤ GCalDate.day_of_week_from_jd jd ∧
    GCalDate.day_of_week_from_jd jd ≤ 6 ∧
    (∀ df : ℤ, GCalDate.day_of_week_from_jd ⟨jd.jdn + 1, df⟩ =
      (GCalDate.day_of_week_from_jd jd + 1) % 7) ∧
    JCalDate.day_of_week_from_jd jd = GCalDate.day_of_week_from_jd jd := by
  unfold JCalDate.day_of_week_from_jd GCalDate.day_of_week_from_jd
  refine ⟨rfl, by omega, by omega, fun df => ?_, rfl⟩
  dsimp only
  omega

/-- C8: the Gregorian leap-year predicate holds iff `year % 4 == 0` and
(`year % 100 != 0` or `year % 400 == 0`); the Julian-calendar one holds iff
`year % 4 == 0` (Python `%`, i.e. `Int.emod`). -/
theorem leap_year_spec (y : ℤ) :
    (GCalDate.leap_year y = true ↔
      y % 4 = 0 ∧ (y % 100 ≠ 0 ∨ y % 400 = 0)) ∧
    (JCalDate.leap_year y = true ↔ y % 4 = 0) :=
  ⟨aux_gleap_iff y, aux_jleap_iff y⟩

/-- C6 counterexample: `2^256 - 1` lies in the claimed `uint256` range but
`DateTokenIndex` construction fails on it, because
`DateTokenIndex.get_int_bounds` overrides the `uint256` bounds with
`(0, 40*10**9*365.25)`. -/
theorem dti_uint256_counterexample :
    mkSolidityInt DateTokenIndex.bounds (2 ^ 256 - 1) = none := by decide

/-- C6 (amended): `DateTokenIndex` construction succeeds exactly on
`[0, 14610000000000]` (the overridden bounds `(0, 40*10**9*365.25)`), and
raises the out-of-range error exactly outside that interval. -/
theorem dti_bounds_spec (v : ℤ) :
    (mkSolidityInt DateTokenIndex.bounds v = some v ↔
      0 ≤ v ∧ v ≤ 14610000000000) ∧
    (mkSolidityInt DateTokenIndex.bounds v = none ↔
      (v < 0 ∨ 14610000000000 < v)) := by
  unfold mkSolidityInt DateTokenIndex.bounds
  split_ifs with h <;> simp_all
  all_goals omega

/-- C1: over the declared `DateTokenIndex` range `[0, 14610000000000]` and
the declared `JDN` range `[-7305000000000, 7305000000000]` (with day
fraction 5), `from_jd` and `from_dti` through the fixed `MIDPOINT` offset
are mutually inverse bijections, with every intermediate bound check
succeeding. -/
theorem dti_jd_bijection (x jdn : ℤ)
    (hx : 0 ≤ x ∧ x ≤ 14610000000000)
    (hj : -7305000000000 ≤ jdn ∧ jdn ≤ 7305000000000) :
    (JulianDate.from_dti x).bind DateTokenIndex.from_jd = some x ∧
    (DateTokenIndex.from_jd ⟨jdn, 5⟩).bind JulianDate.from_dti =
      some ⟨jdn, 5⟩ := by
  constructor
  · rw [JulianDate.from_dti,
      aux_make_some _ 5 (by unfold DateTokenIndex.MIDPOINT; omega) (by omega),
      Option.some_bind, DateTokenIndex.from_jd,
      aux_mk_some _ _ (by unfold DateTokenIndex.bounds DateTokenIndex.MIDPOINT; dsimp; omega)]
    unfold DateTokenIndex.MIDPOINT
    norm_num
  · rw [DateTokenIndex.from_jd,
      aux_mk_some _ _ (by unfold DateTokenIndex.bounds DateTokenIndex.MIDPOINT; dsimp; omega),
      Option.some_bind, JulianDate.from_dti,
      aux_make_some _ 5 (by unfold DateTokenIndex.MIDPOINT; dsimp; omega) (by omega)]
    unfold DateTokenIndex.MIDPOINT
    norm_num

/-- C1 witness: the bijection evaluated at the concrete date token index
`12345` and the concrete Julian Day Number `-99`. -/
theorem dti_jd_bijection_witness :
    (JulianDate.from_dti 12345).bind DateTokenIndex.from_jd = some 12345 ∧
    (DateTokenIndex.from_jd ⟨-99, 5⟩).bind JulianDate.from_dti =
      some ⟨-99, 5⟩ :=
  dti_jd_bijection 12345 (-99) (by norm_num) (by norm_num)

/-- C5 counterexample: two Gregorian dates that differ only in
`day_of_week` compare equal, and a Gregorian date compares equal to a
Julian-calendar date with the same day, month and year, because the mixin
equality derived from `__lt__` never examines `day_of_week` or the concrete
class. -/
theorem calendar_eq_counterexample :
    CalendarDate.pyEq ⟨CalKind.gregorian, 0, 25, 12, 2021⟩
        ⟨CalKind.gregorian, 6, 25, 12, 2021⟩ = true ∧
    (⟨CalKind.gregorian, 0, 25, 12, 2021⟩ : CalendarDate).day_of_week ≠
      (⟨CalKind.gregorian, 6, 25, 12, 2021⟩ : CalendarDate).day_of_week ∧
    CalendarDate.pyEq ⟨CalKind.gregorian, 6, 25, 12, 2021⟩
        ⟨CalKind.julian, 6, 25, 12, 2021⟩ = true ∧
    (⟨CalKind.gregorian, 6, 25, 12, 2021⟩ : CalendarDate).kind ≠
      (⟨CalKind.julian, 6, 25, 12, 2021⟩ : CalendarDate).kind := by
  decide

/-- C5 (amended): calendar-date equality is structural over the three
fields (year, month, day) only: two dates are equal iff those coincide;
`day_of_week` and the concrete calendar class are ignored. -/
theorem calendar_eq_spec (a b : CalendarDate) :
    CalendarDate.pyEq a b = true ↔
      a.year = b.year ∧ a.month = b.month ∧ a.day = b.day :=
  aux_pyEq_iff a b

/-- C7 counterexample: a Gregorian date carrying a wrong day-of-week field
(January 1, 2000 was a Saturday, day-of-week 6, not 3) is reported `valid`
even though reconstructing a date from its own Julian Date does not yield an
identical date: the `valid` check uses the mixin equality, which ignores
`day_of_week`. -/
theorem calendar_valid_counterexample :
    GCalDate.valid ⟨CalKind.gregorian, 3, 1, 1, 2000⟩ = true ∧
    GCalDate.from_jd (GCalDate.to_jd ⟨CalKind.gregorian, 3, 1, 1, 2000⟩) ≠
      ⟨CalKind.gregorian, 3, 1, 1, 2000⟩ := by
  decide

/-- C7 (amended): a calendar date is `valid` iff reconstructing a date from
its own Julian Date yields a date equal to it in the code's order-derived
equality, i.e. agreeing on year, month and day (`day_of_week` is not
compared); in particular February 30, 2000 is invalid and February 29, 2000
is valid in the Gregorian calendar. -/
theorem calendar_valid_spec (dt : CalendarDate) :
    (GCalDate.valid dt = true ↔
      (dt.year = (GCalDate.from_jd (GCalDate.to_jd dt)).year ∧
       dt.month = (GCalDate.from_jd (GCalDate.to_jd dt)).month ∧
       dt.day = (GCalDate.from_jd (GCalDate.to_jd dt)).day)) ∧
    (JCalDate.valid dt = true ↔
      (dt.year = (JCalDate.from_jd (JCalDate.to_jd dt)).year ∧
       dt.month = (JCalDate.from_jd (JCalDate.to_jd dt)).month ∧
       dt.day = (JCalDate.from_jd (JCalDate.to_jd dt)).day)) ∧
    GCalDate.valid (GCalDate.from_dmy 30 2 2000) = false ∧
    GCalDate.valid (GCalDate.from_dmy 29 2 2000) = true :=
  ⟨aux_pyEq_iff _ _, aux_pyEq_iff _ _, by decide, by decide⟩

/-- C4 counterexample: rendering the Gregorian date of `JulianDate(-1, 5)`
does not produce the claimed string `"Monday 24 November 4713 BC"`: the
astronomical year `-4713` is displayed as `-(-4713) + 1 = 4714 BC`. -/
theorem jd_minus_one_string_counterexample :
    CalendarDate.render (GCalDate.from_jd ⟨-1, 5⟩) ≠
      "Monday 24 November 4713 BC" := by
  decide

/-- C4 (amended): `JulianDate(-1, 5)` converts to the Gregorian calendar
date with year `-4713`, month `11`, day `24`, day-of-week `1` (Monday), and
renders as `"Monday 24 November 4714 BC"` (era suffix because the
astronomical year is non-positive; display year `= -year + 1 = 4714`). -/
theorem jd_minus_one_gregorian :
    (GCalDate.from_jd ⟨-1, 5⟩).year = -4713 ∧
    (GCalDate.from_jd ⟨-1, 5⟩).month = 11 ∧
    (GCalDate.from_jd ⟨-1, 5⟩).day = 24 ∧
    (GCalDate.from_jd ⟨-1, 5⟩).day_of_week = 1 ∧
    CalendarDate.render (GCalDate.from_jd ⟨-1, 5⟩) =
      "Monday 24 November 4714 BC" := by
  decide

/-- The `_TO_JD_HELPER` lookup of a month between 0 and 12 is one of the
table entries, in particular between 0 and 337. -/
theorem aux_toHelper_bounds (m : ℤ) (h : 0 ≤ m ∧ m ≤ 12) :
    0 ≤ toHelper m ∧ toHelper m ≤ 337 := by
  have h13 : m = 0 ∨ m = 1 ∨ m = 2 ∨ m = 3 ∨ m = 4 ∨ m = 5 ∨ m = 6 ∨ m = 7 ∨
      m = 8 ∨ m = 9 ∨ m = 10 ∨ m = 11 ∨ m = 12 := by omega
  rcases h13 with rfl | rfl | rfl | rfl | rfl | rfl | rfl | rfl | rfl | rfl |
    rfl | rfl | rfl <;> decide

/-- C9 counterexample: the claim quantifies over every year, but `to_jd`
does raise for a day-0 date when the year is large enough that the resulting
day number overflows the `JDN` bounds — e.g. day 0 of March of year
`21000000000` (a valid `int256` year). -/
theorem to_jd_total_counterexample :
    GCalDate.to_jd_checked ⟨CalKind.gregorian, 0, 0, 3, 21000000000⟩ =
      none := by
  decide

/-- C9 (amended): for every year small enough that the resulting day number
stays inside the `JDN` bounds (in particular every `|year| ≤ 10^7`), `to_jd`
raises no error on any `uint8` day (including day 0) and any month between 0
and 12 (including month 0); and day 0 of March yields the same Julian Date
as the last day of February (the 29th in a leap year, the 28th otherwise),
in both calendars. -/
theorem to_jd_rollover (y d m w : ℤ)
    (hy : -10000000 ≤ y ∧ y ≤ 10000000)
    (hd : 0 ≤ d ∧ d ≤ 255)
    (hm : 0 ≤ m ∧ m ≤ 12) :
    GCalDate.to_jd_checked ⟨CalKind.gregorian, w, d, m, y⟩ =
      some (GCalDate.to_jd ⟨CalKind.gregorian, w, d, m, y⟩) ∧
    GCalDate.to_jd ⟨CalKind.gregorian, w, 0, 3, y⟩ =
      GCalDate.to_jd ⟨CalKind.gregorian, w,
        (if GCalDate.leap_year y then 29 else 28), 2, y⟩ ∧
    JCalDate.to_jd ⟨CalKind.julian, w, 0, 3, y⟩ =
      JCalDate.to_jd ⟨CalKind.julian, w,
        (if JCalDate.leap_year y then 29 else 28), 2, y⟩ := by
  have hf := aux_toHelper_bounds m hm
  refine ⟨?_, ?_, ?_⟩
  · unfold GCalDate.to_jd_checked
    rw [if_neg (by dsimp only; omega)]
    unfold GCalDate.to_jd
    dsimp only
    split_ifs with h3
    · rw [aux_make_some _ 5 ?_ (by omega)]
      rw [aux_fdiv_4, aux_fdiv_100, aux_fdiv_400]
      constructor <;> omega
    · rw [aux_make_some _ 5 ?_ (by omega)]
      rw [aux_fdiv_4, aux_fdiv_100, aux_fdiv_400]
      constructor <;> omega
  · unfold GCalDate.to_jd
    dsimp only
    rw [if_neg (by norm_num : ¬(3 : ℤ) < 3), if_pos (by norm_num : (2 : ℤ) < 3),
      (by decide : toHelper 3 = 0), (by decide : toHelper 2 = 337),
      aux_fdiv_4, aux_fdiv_100, aux_fdiv_400, aux_fdiv_4, aux_fdiv_100,
      aux_fdiv_400]
    simp only [JulianDate.mk.injEq, and_true]
    cases hLY : GCalDate.leap_year y with
    | true =>
      have hl := (aux_gleap_iff y).mp hLY
      rw [if_pos rfl]
      omega
    | false =>
      have hl := (aux_gleap_iff y).not.mp (by simp [hLY])
      rw [if_neg (by decide)]
      omega
  · unfold JCalDate.to_jd
    dsimp only
    rw [if_neg (by norm_num : ¬(3 : ℤ) < 3), if_pos (by norm_num : (2 : ℤ) < 3),
      (by decide : toHelper 3 = 0), (by decide : toHelper 2 = 337),
      aux_fdiv_4, aux_fdiv_4]
    simp only [JulianDate.mk.injEq, and_true]
    cases hLY : JCalDate.leap_year y with
    | true =>
      have hl := (aux_jleap_iff y).mp hLY
      rw [if_pos rfl]
      omega
    | false =>
      have hl := (aux_jleap_iff y).not.mp (by simp [hLY])
      rw [if_neg (by decide)]
      omega

/-- C9 witness: the amended statement evaluated at year 2000 (a Gregorian
leap year), day 0, month 0. -/
theorem to_jd_rollover_witness :
    GCalDate.to_jd_checked ⟨CalKind.gregorian, 0, 0, 0, 2000⟩ =
      some (GCalDate.to_jd ⟨CalKind.gregorian, 0, 0, 0, 2000⟩) ∧
    GCalDate.to_jd ⟨CalKind.gregorian, 0, 0, 3, 2000⟩ =
      GCalDate.to_jd ⟨CalKind.gregorian, 0,
        (if GCalDate.leap_year 2000 then 29 else 28), 2, 2000⟩ ∧
    JCalDate.to_jd ⟨CalKind.julian, 0, 0, 3, 2000⟩ =
      JCalDate.to_jd ⟨CalKind.julian, 0,
        (if JCalDate.leap_year 2000 then 29 else 28), 2, 2000⟩ :=
  to_jd_rollover 2000 0 0 0 (by norm_num) (by norm_num) (by norm_num)

/-- Core arithmetic facts about Baum's Gregorian algorithm: the day offset
`c` within the computational year always lies in `[1, 366]`, and `z`
decomposes as `c` plus the Gregorian day count of the computational year
`y`. -/
theorem aux_gcal_core (z : ℤ) :
    1 ≤ GCalDate.fromC z ∧ GCalDate.fromC z ≤ 366 ∧
    z = GCalDate.fromC z + 365 * GCalDate.fromY z + GCalDate.fromY z / 4 -
      GCalDate.fromY z / 100 + GCalDate.fromY z / 400 := by
  unfold GCalDate.fromC GCalDate.fromY GCalDate.fromA
  simp only [aux_fdiv_3652425, aux_fdiv_4, aux_fdiv_36525, aux_fdiv_100,
    aux_fdiv_400]
  set b := (z * 100 - 25) / 3652425 with hb
  set c := b / 4 with hc
  set e := (z * 100 - 25 + b * 100 - c * 100) / 36525 with he
  have k1 : 3652425 * b ≤ z * 100 - 25 ∧ z * 100 - 25 < 3652425 * (b + 1) := by
    omega
  have k2 : 36525 * e ≤ z * 100 - 25 + b * 100 - c * 100 ∧
      z * 100 - 25 + b * 100 - c * 100 < 36525 * (e + 1) := by
    omega
  have k3 : 4 * c ≤ b ∧ b < 4 * (c + 1) := by omega
  have hL1 : b = e / 100 := by omega
  have hL2 : c = e / 400 := by omega
  omega

/-- Core arithmetic facts about Baum's Julian-calendar algorithm. -/
theorem aux_jcal_core (z : ℤ) :
    1 ≤ JCalDate.fromC z ∧ JCalDate.fromC z ≤ 366 ∧
    z = JCalDate.fromC z + 365 * JCalDate.fromY z + JCalDate.fromY z / 4 := by
  unfold JCalDate.fromC JCalDate.fromY
  simp only [aux_fdiv_36525, aux_fdiv_100, aux_fdiv_4]
  omega

/-- For an unshifted month between March and December the two month tables
agree: `_TO_JD_HELPER[m-1] = _FROM_JD_HELPER[m-3]`. -/
theorem aux_table_eq (m : ℤ) (h : 3 ≤ m ∧ m ≤ 12) :
    toHelper m = fromHelper m := by
  have h10 : m = 3 ∨ m = 4 ∨ m = 5 ∨ m = 6 ∨ m = 7 ∨ m = 8 ∨ m = 9 ∨
      m = 10 ∨ m = 11 ∨ m = 12 := by omega
  rcases h10 with rfl | rfl | rfl | rfl | rfl | rfl | rfl | rfl | rfl | rfl <;>
    decide

/-- The Gregorian Julian-Date round trip, unconditionally on the raw
arithmetic. -/
theorem aux_gcal_roundtrip (jdn : ℤ) :
    GCalDate.to_jd (GCalDate.from_jd ⟨jdn, 5⟩) = ⟨jdn, 5⟩ := by
  obtain ⟨h1, h2, hz⟩ := aux_gcal_core (jdn - 1721118)
  have hm : GCalDate.fromM (jdn - 1721118) =
      (5 * GCalDate.fromC (jdn - 1721118) + 456) / 153 := by
    unfold GCalDate.fromM
    simp only [aux_fdiv_153]
  unfold GCalDate.from_jd GCalDate.to_jd
  dsimp only
  simp only [JulianDate.mk.injEq, eq_self_iff_true, and_true]
  by_cases h12 : GCalDate.fromM (jdn - 1721118) > 12
  · simp only [if_pos h12]
    rw [if_pos (by omega : GCalDate.fromM (jdn - 1721118) - 12 < 3)]
    have h1314 : GCalDate.fromM (jdn - 1721118) = 13 ∨
        GCalDate.fromM (jdn - 1721118) = 14 := by omega
    rcases h1314 with h | h
    · rw [h, (by norm_num : (13 : ℤ) - 12 = 1),
        (by decide : toHelper 1 = 306), (by decide : fromHelper 13 = 306)]
      simp only [aux_fdiv_4, aux_fdiv_100, aux_fdiv_400]
      omega
    · rw [h, (by norm_num : (14 : ℤ) - 12 = 2),
        (by decide : toHelper 2 = 337), (by decide : fromHelper 14 = 337)]
      simp only [aux_fdiv_4, aux_fdiv_100, aux_fdiv_400]
      omega
  · simp only [if_neg h12]
    rw [if_neg (by omega : ¬GCalDate.fromM (jdn - 1721118) < 3),
      aux_table_eq _ (by omega)]
    simp only [aux_fdiv_4, aux_fdiv_100, aux_fdiv_400]
    omega

/-- The Julian-calendar Julian-Date round trip, unconditionally on the raw
arithmetic. -/
theorem aux_jcal_roundtrip (jdn : ℤ) :
    JCalDate.to_jd (JCalDate.from_jd ⟨jdn, 5⟩) = ⟨jdn, 5⟩ := by
  obtain ⟨h1, h2, hz⟩ := aux_jcal_core (jdn - 1721116)
  have hm : JCalDate.fromM (jdn - 1721116) =
      (5 * JCalDate.fromC (jdn - 1721116) + 456) / 153 := by
    unfold JCalDate.fromM
    simp only [aux_fdiv_153]
  unfold JCalDate.from_jd JCalDate.to_jd
  dsimp only
  simp only [JulianDate.mk.injEq, eq_self_iff_true, and_true]
  by_cases h12 : JCalDate.fromM (jdn - 1721116) > 12
  · simp only [if_pos h12]
    rw [if_pos (by omega : JCalDate.fromM (jdn - 1721116) - 12 < 3)]
    have h1314 : JCalDate.fromM (jdn - 1721116) = 13 ∨
        JCalDate.fromM (jdn - 1721116) = 14 := by omega
    rcases h1314 with h | h
    · rw [h, (by norm_num : (13 : ℤ) - 12 = 1),
        (by decide : toHelper 1 = 306), (by decide : fromHelper 13 = 306)]
      simp only [aux_fdiv_4]
      omega
    · rw [h, (by norm_num : (14 : ℤ) - 12 = 2),
        (by decide : toHelper 2 = 337), (by decide : fromHelper 14 = 337)]
      simp only [aux_fdiv_4]
      omega
  · simp only [if_neg h12]
    rw [if_neg (by omega : ¬JCalDate.fromM (jdn - 1721116) < 3),
      aux_table_eq _ (by omega)]
    simp only [aux_fdiv_4]
    omega

/-- C2: for every Julian Date with day fraction 5 and an in-range day
number, converting to a calendar date and back is the identity, for both the
Gregorian and the Julian calendar conversions. -/
theorem jd_calendar_roundtrip (jd : JulianDate)
    (hdf : jd.day_fraction = 5)
    (hr : -7305000000000 ≤ jd.jdn ∧ jd.jdn ≤ 7305000000000) :
    GCalDate.to_jd (GCalDate.from_jd jd) = jd ∧
    JCalDate.to_jd (JCalDate.from_jd jd) = jd := by
  obtain ⟨j, f⟩ := jd
  dsimp only at hdf
  subst hdf
  exact ⟨aux_gcal_roundtrip j, aux_jcal_roundtrip j⟩

/-- C2 witness: the round trip evaluated at the Julian Date of the Unix
epoch, `JulianDate(2440587, 5)`. -/
theorem jd_calendar_roundtrip_witness :
    GCalDate.to_jd (GCalDate.from_jd ⟨2440587, 5⟩) = ⟨2440587, 5⟩ ∧
    JCalDate.to_jd (JCalDate.from_jd ⟨2440587, 5⟩) = ⟨2440587, 5⟩ :=
  jd_calendar_roundtrip ⟨2440587, 5⟩ rfl (by norm_num)

/-- C10 counterexample: at the in-range signed year `10^20 + 1` (well inside
`int256`), the code's century computation — `math.ceil(uns_y / 100)`, which
rounds the quotient through a 53-bit IEEE-754 double — returns century
`10^18`, whose AD bounds are `[10^20 - 99, 10^20]`; the year itself lies
outside those bounds. -/
theorem century_bounds_counterexample :
    ¬((CalendarDate.get_signed_bounds_of_century
        (CalendarDate.get_century_of_signed_year (10 ^ 20 + 1)).1
        (CalendarDate.get_century_of_signed_year (10 ^ 20 + 1)).2).1 ≤
          10 ^ 20 + 1 ∧
      (10 ^ 20 + 1 : ℤ) ≤
        (CalendarDate.get_signed_bounds_of_century
          (CalendarDate.get_century_of_signed_year (10 ^ 20 + 1)).1
          (CalendarDate.get_century_of_signed_year (10 ^ 20 + 1)).2).2) := by
  decide

/-- C10 (amended): with the century computed by the exact integer ceiling
`⌈uns_y / 100⌉` (which Python's float-based ceiling matches for unsigned
years a double can resolve, up to about `9 * 10^13`), every signed year lies
between the signed bounds of its own (century, era); and the
signed/unsigned-year conversion round-trips for every signed year without
restriction. -/
theorem century_arithmetic_spec (y : ℤ) :
    (CalendarDate.get_signed_bounds_of_century
      (CalendarDate.get_century_exact y).1
      (CalendarDate.get_century_exact y).2).1 ≤ y ∧
    y ≤ (CalendarDate.get_signed_bounds_of_century
      (CalendarDate.get_century_exact y).1
      (CalendarDate.get_century_exact y).2).2 ∧
    CalendarDate.convert_unsigned_year
      (CalendarDate.convert_signed_year y).1
      (CalendarDate.convert_signed_year y).2 = y := by
  have hbc : BC_ERAS.contains "BC" = true := by decide
  have had : BC_ERAS.contains "AD" = false := by decide
  unfold CalendarDate.get_signed_bounds_of_century
    CalendarDate.get_century_exact CalendarDate.convert_unsigned_year
    CalendarDate.convert_signed_year
  by_cases h : y ≤ 0
  · simp only [if_pos h, hbc, eq_self_iff_true, if_true]
    simp only [aux_fdiv_100, and_true, eq_self_iff_true]
    omega
  · simp only [if_neg h, had, Bool.false_eq_true, if_false]
    simp only [aux_fdiv_100, and_true, eq_self_iff_true]
    omega

end DateCalendar
